import Mathlib

/-!
Shallow embedding of the ImgBB client library (github.com/JohnNON/ImgBB).

The repository ships one current revision of the client (`imgbb.go`, with
`part_000` as its test file) and three earlier revisions of the same file
(`unnamed/part_001` .. `unnamed/part_003`).  Namespaces:

* `Imgbb` — the current revision, `src/imgbb.go`
* `Rev1`  — `src/unnamed/part_001` (validates at construction time)
* `Rev2`  — `src/unnamed/part_002` (exported fields, 413 on oversize)
* `Rev3`  — `src/unnamed/part_003` (source-string variant, plain wrapped errors)

Shared infrastructure models the parts of the Go standard library the code
uses: JSON documents and `encoding/json.Unmarshal` into the declared struct
types, multipart bodies as lists of parts, and the injected `http.Client`
reduced to its `Do` method, a function from requests to transport results.
Byte slices are `List Nat`.  Each revision's `Upload` additionally returns
the list of requests handed to the injected client, so that "the transport
was never invoked" is expressible; the Go functions return only the
response/error pair.
-/

/-- A JSON document value.  Numbers are modelled as integers: the struct
fields this client decodes are Go `int`/`int64`/`string`/`bool` fields, and a
fractional JSON number would fail to unmarshal into any of them. -/
inductive Json where
  | null
  | bool (b : Bool)
  | num (n : Int)
  | str (s : String)
  | arr (elems : List Json)
  | obj (fields : List (String × Json))

/-- A response body as handed to `json.Unmarshal`: either bytes that are not
well-formed JSON at all, or a parsed JSON document. -/
inductive JsonDoc where
  | invalid (raw : String)
  | valid (j : Json)

/-- Reading the response body with `io.ReadAll` either fails or yields the
body content. -/
inductive BodyRead where
  | readError (msg : String)
  | content (doc : JsonDoc)

/-- An HTTP response as far as `respParse` observes one. -/
structure HttpResponse where
  statusCode : Int
  body : BodyRead

/-- One part of a multipart/form-data body: a plain field written with
`WriteField`, or a file part created with `CreateFormFile` and filled by
`io.Copy`. -/
inductive FormPart where
  | field (name value : String)
  | filePart (fieldname filename : String) (contents : List Nat)
deriving DecidableEq, Repr

/-- An HTTP request as built by the client: method, URL, headers, and the
multipart body (the boundary string of the multipart encoder is not
modelled). -/
structure HttpRequest where
  method : String
  url : String
  headers : List (String × String)
  parts : List FormPart

/-- Outcome of `http.Client.Do`: a transport error or a received response. -/
inductive TransportResult where
  | failure (msg : String)
  | success (resp : HttpResponse)

/-- The injected `http.Client`, reduced to its `Do` method. -/
abbrev Transport := HttpRequest → TransportResult

/-- `net/http.StatusText`, restricted to the status codes this library
produces itself (the stdlib table is total; unused entries are `""`). -/
def statusText (code : Int) : String :=
  if code = 200 then "OK"
  else if code = 400 then "Bad Request"
  else if code = 413 then "Request Entity Too Large"
  else if code = 500 then "Internal Server Error"
  else ""

namespace Imgbb

/-- `Image` of `imgbb.go`: unexported fields `name`, `size`, `expiration`,
`file`; `size` is set to `len(file)` by `NewImage`. -/
structure Image where
  name : String
  size : Nat
  expiration : String
  file : List Nat
deriving DecidableEq, Repr

/-- `NewImage` of `imgbb.go`: pure construction, no validation. -/
def NewImage (name expiration : String) (file : List Nat) : Image :=
  ⟨name, file.length, expiration, file⟩

/-- `ErrInfo` of `imgbb.go` (`message`, `code`, `context`). -/
structure ErrInfo where
  Message : String
  Code : Int
  Context : String
deriving DecidableEq, Repr

/-- `ImgBBError` of `imgbb.go` (`status_code`, `status_txt`, `error`). -/
structure ImgBBError where
  StatusCode : Int
  StatusText : String
  Err : ErrInfo
deriving DecidableEq, Repr

/-- A Go `error` as observable by `ImgBBError.Is`: the dynamic type is either
`ImgBBError` or some other error — for this package, a sentinel created by
`errors.New`, carrying only its message string. -/
inductive GoError where
  | imgbb (e : ImgBBError)
  | sentinel (msg : String)
deriving DecidableEq, Repr

/-- `var ErrFileEmpty = errors.New("image file is empty")`. -/
def ErrFileEmpty : GoError := GoError.sentinel "image file is empty"

/-- `var ErrFileSize = errors.New("image is too large, max image size is 32mb")`. -/
def ErrFileSize : GoError := GoError.sentinel "image is too large, max image size is 32mb"

/-- `func (e ImgBBError) Is(target error) bool`: the type assertion
`target.(ImgBBError)` fails for anything that is not an `ImgBBError` value,
otherwise status code and status text are compared. -/
def ImgBBError.Is (e : ImgBBError) (target : GoError) : Bool :=
  match target with
  | GoError.imgbb err => err.StatusCode == e.StatusCode && err.StatusText == e.StatusText
  | GoError.sentinel _ => false

/-- `Info` of `imgbb.go`. -/
structure Info where
  Filename : String
  Name : String
  Mime : String
  Extension : String
  Url : String
deriving DecidableEq, Repr

/-- `Data` of `imgbb.go` (`time` and `expiration` are strings in this
revision; `width`/`height` are ints). -/
structure Data where
  ID : String
  Title : String
  UrlViewer : String
  Url : String
  DisplayUrl : String
  Width : Int
  Height : Int
  Size : Int
  Time : String
  Expiration : String
  Image : Info
  Thumb : Info
  Medium : Info
  DeleteUrl : String
deriving DecidableEq, Repr

/-- `ImgBBResponse` of `imgbb.go`. -/
structure ImgBBResponse where
  Data : Data
  StatusCode : Int
  Success : Bool
deriving DecidableEq, Repr

def zeroInfo : Info := ⟨"", "", "", "", ""⟩

def zeroData : Data := ⟨"", "", "", "", "", 0, 0, 0, "", "", zeroInfo, zeroInfo, zeroInfo, ""⟩

/-- Last-occurrence lookup of an object key (`encoding/json` keeps the last
of duplicate keys).  Field-name matching is modelled as exact; the
case-insensitive fallback of `encoding/json` is not modelled. -/
def jlookup (fs : List (String × Json)) (k : String) : Option Json :=
  (fs.reverse.find? (fun p => p.1 == k)).map (fun p => p.2)

/-- Decode an object field into a Go `string` struct field: absent or `null`
leaves the zero value, a JSON string is taken, any other JSON type is an
`UnmarshalTypeError`. -/
def jStr (fs : List (String × Json)) (k : String) : Option String :=
  match jlookup fs k with
  | none => some ""
  | some Json.null => some ""
  | some (Json.str s) => some s
  | some _ => none

/-- Decode an object field into a Go `int`/`int64` struct field. -/
def jInt (fs : List (String × Json)) (k : String) : Option Int :=
  match jlookup fs k with
  | none => some 0
  | some Json.null => some 0
  | some (Json.num n) => some n
  | some _ => none

/-- Decode an object field into a Go `bool` struct field. -/
def jBool (fs : List (String × Json)) (k : String) : Option Bool :=
  match jlookup fs k with
  | none => some false
  | some Json.null => some false
  | some (Json.bool b) => some b
  | some _ => none

/-- Unmarshal a JSON value into an `Info` struct. -/
def unmarshalInfo (j : Json) : Option Info :=
  match j with
  | Json.null => some zeroInfo
  | Json.obj fs => do
      let filename ← jStr fs "filename"
      let nm ← jStr fs "name"
      let mime ← jStr fs "mime"
      let ext ← jStr fs "extension"
      let url ← jStr fs "url"
      some ⟨filename, nm, mime, ext, url⟩
  | _ => none

/-- Decode an object field into an `Info` struct field. -/
def jInfo (fs : List (String × Json)) (k : String) : Option Info :=
  match jlookup fs k with
  | none => some zeroInfo
  | some j => unmarshalInfo j

/-- Unmarshal a JSON value into an `ErrInfo` struct. -/
def unmarshalErrInfo (j : Json) : Option ErrInfo :=
  match j with
  | Json.null => some ⟨"", 0, ""⟩
  | Json.obj fs => do
      let msg ← jStr fs "message"
      let code ← jInt fs "code"
      let ctx ← jStr fs "context"
      some ⟨msg, code, ctx⟩
  | _ => none

/-- Decode an object field into an `ErrInfo` struct field. -/
def jErrInfo (fs : List (String × Json)) (k : String) : Option ErrInfo :=
  match jlookup fs k with
  | none => some ⟨"", 0, ""⟩
  | some j => unmarshalErrInfo j

/-- Unmarshal a JSON value into a `Data` struct. -/
def unmarshalData (j : Json) : Option Data :=
  match j with
  | Json.null => some zeroData
  | Json.obj fs => do
      let id ← jStr fs "id"
      let title ← jStr fs "title"
      let urlViewer ← jStr fs "url_viewer"
      let url ← jStr fs "url"
      let displayUrl ← jStr fs "display_url"
      let width ← jInt fs "width"
      let height ← jInt fs "height"
      let size ← jInt fs "size"
      let time ← jStr fs "time"
      let expiration ← jStr fs "expiration"
      let image ← jInfo fs "image"
      let thumb ← jInfo fs "thumb"
      let medium ← jInfo fs "medium"
      let deleteUrl ← jStr fs "delete_url"
      some ⟨id, title, urlViewer, url, displayUrl, width, height, size, time,
            expiration, image, thumb, medium, deleteUrl⟩
  | _ => none

/-- Decode an object field into a `Data` struct field. -/
def jData (fs : List (String × Json)) (k : String) : Option Data :=
  match jlookup fs k with
  | none => some zeroData
  | some j => unmarshalData j

/-- `json.Unmarshal` into `ImgBBResponse`: the top level must be an object or
`null`; any other JSON type is an unmarshal error. -/
def unmarshalResponse (j : Json) : Option ImgBBResponse :=
  match j with
  | Json.null => some ⟨zeroData, 0, false⟩
  | Json.obj fs => do
      let d ← jData fs "data"
      let sc ← jInt fs "status"
      let ok ← jBool fs "success"
      some ⟨d, sc, ok⟩
  | _ => none

/-- `json.Unmarshal` into `ImgBBError`. -/
def unmarshalError (j : Json) : Option ImgBBError :=
  match j with
  | Json.null => some ⟨0, "", ⟨"", 0, ""⟩⟩
  | Json.obj fs => do
      let sc ← jInt fs "status_code"
      let st ← jStr fs "status_txt"
      let info ← jErrInfo fs "error"
      some ⟨sc, st, info⟩
  | _ => none

/-- `json.Unmarshal(body, &res)` on the raw body bytes (syntactically invalid
JSON fails before any struct decoding). -/
def jsonUnmarshalResponse (doc : JsonDoc) : Option ImgBBResponse :=
  match doc with
  | JsonDoc.invalid _ => none
  | JsonDoc.valid j => unmarshalResponse j

/-- `json.Unmarshal(body, &errRes)` on the raw body bytes. -/
def jsonUnmarshalError (doc : JsonDoc) : Option ImgBBError :=
  match doc with
  | JsonDoc.invalid _ => none
  | JsonDoc.valid j => unmarshalError j

/-- The error value built when `json.Unmarshal` fails; the formatted Go
message `"json unmarshal: %v"` is modelled without the decoder's own text. -/
def internalUnmarshalError : ImgBBError :=
  ⟨500, statusText 500, ⟨"json unmarshal", 0, ""⟩⟩

/-- The error value built when `io.ReadAll` on the body fails. -/
def internalReadError (msg : String) : ImgBBError :=
  ⟨500, statusText 500, ⟨"read response body: " ++ msg, 0, ""⟩⟩

/-- The error value built when `client.Do` fails. -/
def internalTransportError (msg : String) : ImgBBError :=
  ⟨500, statusText 500, ⟨"http client request do: " ++ msg, 0, ""⟩⟩

/-- `respParse` of `imgbb.go`, returning the Go pair
`(*ImgBBResponse, error)` as a pair of options. -/
def respParse (resp : HttpResponse) : Option ImgBBResponse × Option ImgBBError :=
  match resp.body with
  | BodyRead.readError msg => (none, some (internalReadError msg))
  | BodyRead.content doc =>
      if resp.statusCode = 200 then
        match jsonUnmarshalResponse doc with
        | none => (none, some internalUnmarshalError)
        | some res => (some res, none)
      else
        match jsonUnmarshalError doc with
        | none => (none, some internalUnmarshalError)
        | some errRes => (none, some errRes)

/-- The multipart body written by the producer goroutine inside `Upload`:
`key`, `type=file`, `action=upload`, `expiration` only when
`len(img.expiration) > 0`, and the file part `image` carrying the bytes
under the image's name. -/
def multipartBody (key : String) (img : Image) : List FormPart :=
  [FormPart.field "key" key, FormPart.field "type" "file", FormPart.field "action" "upload"]
    ++ (if 0 < img.expiration.length then [FormPart.field "expiration" img.expiration] else [])
    ++ [FormPart.filePart "image" img.name img.file]

def endpoint : String := "https://api.imgbb.com/1/upload"

/-- `ImgBB` of `imgbb.go`; the `http.Client` field is modelled as the
`Transport` argument of `Upload`. -/
structure ImgBB where
  key : String
  endpoint : String
deriving Repr

/-- `type Option func(*ImgBB)` (named `ClientOption` here because `Option` is
taken in Lean). -/
abbrev ClientOption := ImgBB → ImgBB

/-- `WithEndpoint` functional option. -/
def WithEndpoint (e : String) : ClientOption := fun c => { c with endpoint := e }

/-- `New` of `imgbb.go`: defaults, then applies the options in order. -/
def New (key : String) (opts : List ClientOption) : ImgBB :=
  opts.foldl (fun c o => o c) ⟨key, endpoint⟩

/-- `Upload` of `imgbb.go`.  The second component records the requests passed
to the injected client's `Do`.  The Go error path of `http.NewRequest`
(malformed endpoint URL) is not modelled; write errors inside the producer
goroutine cannot occur in this model (the pipe is the `parts` list), matching
their being swallowed in the source. -/
def Upload (c : ImgBB) (transport : Transport) (img : Image) :
    (Option ImgBBResponse × Option ImgBBError) × List HttpRequest :=
  if img.size ≤ 0 then
    ((none, some ⟨400, statusText 400, ⟨"image file is empty", 0, ""⟩⟩), [])
  else if 33554432 < img.size then
    ((none, some ⟨400, statusText 400, ⟨"image is too large, max image size is 32mb", 0, ""⟩⟩), [])
  else
    let req : HttpRequest :=
      ⟨"POST", c.endpoint,
        [("Content-Type", "multipart/form-data"), ("Host", "imgbb.com"),
         ("Origin", "https://imgbb.com"), ("Referer", "https://imgbb.com/")],
        multipartBody c.key img⟩
    match transport req with
    | TransportResult.failure msg => ((none, some (internalTransportError msg)), [req])
    | TransportResult.success resp => (respParse resp, [req])

end Imgbb

namespace Rev1

/-- `maxSize = 33554432` of `part_001`. -/
def maxSize : Nat := 33554432

/-- `Image` of `part_001`: `name`, `size`, `ttl` (a `uint64`, modelled as
`Nat`), `file`. -/
structure Image where
  name : String
  size : Nat
  ttl : Nat
  file : List Nat
deriving DecidableEq, Repr

/-- `part_001` sentinel `ErrFileEmpty` (same message as the current
revision). -/
def ErrFileEmpty : Imgbb.GoError := Imgbb.GoError.sentinel "image file is empty"

/-- `part_001` sentinel `ErrFileSize` (message differs from the current
revision: parenthesised). -/
def ErrFileSize : Imgbb.GoError :=
  Imgbb.GoError.sentinel "image is too large (max image size is 32mb)"

/-- `NewImage` of `part_001`: this revision validates at construction time
and returns the bare sentinel errors. -/
def NewImage (name : String) (ttl : Nat) (file : List Nat) :
    Except Imgbb.GoError Image :=
  if file.length ≤ 0 then Except.error ErrFileEmpty
  else if maxSize < file.length then Except.error ErrFileSize
  else Except.ok ⟨name, file.length, ttl, file⟩

/-- `Info` of `part_001` (field `URL` instead of `Url`). -/
structure Info where
  Filename : String
  Name : String
  Mime : String
  Extension : String
  URL : String
deriving DecidableEq, Repr

/-- `Data` of `part_001`: `time` and `expiration` are `int64` here. -/
structure Data where
  ID : String
  Title : String
  URLViewer : String
  URL : String
  DisplayURL : String
  Width : Int
  Height : Int
  Size : Int
  Time : Int
  TTL : Int
  Image : Info
  Thumb : Info
  Medium : Info
  DeleteURL : String
deriving DecidableEq, Repr

/-- `Response` of `part_001`. -/
structure Response where
  Data : Data
  StatusCode : Int
  Success : Bool
deriving DecidableEq, Repr

def zeroInfo : Info := ⟨"", "", "", "", ""⟩

def zeroData : Data := ⟨"", "", "", "", "", 0, 0, 0, 0, 0, zeroInfo, zeroInfo, zeroInfo, ""⟩

/-- The zero `Response{}` value returned alongside every error. -/
def zeroResponse : Response := ⟨zeroData, 0, false⟩

/-- Unmarshal a JSON value into a `part_001` `Info` struct. -/
def unmarshalInfo (j : Json) : Option Info :=
  match j with
  | Json.null => some zeroInfo
  | Json.obj fs => do
      let filename ← Imgbb.jStr fs "filename"
      let nm ← Imgbb.jStr fs "name"
      let mime ← Imgbb.jStr fs "mime"
      let ext ← Imgbb.jStr fs "extension"
      let url ← Imgbb.jStr fs "url"
      some ⟨filename, nm, mime, ext, url⟩
  | _ => none

/-- Decode an object field into a `part_001` `Info` struct field. -/
def jInfo (fs : List (String × Json)) (k : String) : Option Info :=
  match Imgbb.jlookup fs k with
  | none => some zeroInfo
  | some j => unmarshalInfo j

/-- Unmarshal a JSON value into a `part_001` `Data` struct (`time` and
`expiration` must be JSON numbers here). -/
def unmarshalData (j : Json) : Option Data :=
  match j with
  | Json.null => some zeroData
  | Json.obj fs => do
      let id ← Imgbb.jStr fs "id"
      let title ← Imgbb.jStr fs "title"
      let urlViewer ← Imgbb.jStr fs "url_viewer"
      let url ← Imgbb.jStr fs "url"
      let displayUrl ← Imgbb.jStr fs "display_url"
      let width ← Imgbb.jInt fs "width"
      let height ← Imgbb.jInt fs "height"
      let size ← Imgbb.jInt fs "size"
      let time ← Imgbb.jInt fs "time"
      let ttl ← Imgbb.jInt fs "expiration"
      let image ← jInfo fs "image"
      let thumb ← jInfo fs "thumb"
      let medium ← jInfo fs "medium"
      let deleteUrl ← Imgbb.jStr fs "delete_url"
      some ⟨id, title, urlViewer, url, displayUrl, width, height, size, time,
            ttl, image, thumb, medium, deleteUrl⟩
  | _ => none

/-- Decode an object field into a `part_001` `Data` struct field. -/
def jData (fs : List (String × Json)) (k : String) : Option Data :=
  match Imgbb.jlookup fs k with
  | none => some zeroData
  | some j => unmarshalData j

/-- `json.Unmarshal` into a `part_001` `Response`. -/
def unmarshalResponse (j : Json) : Option Response :=
  match j with
  | Json.null => some zeroResponse
  | Json.obj fs => do
      let d ← jData fs "data"
      let sc ← Imgbb.jInt fs "status"
      let ok ← Imgbb.jBool fs "success"
      some ⟨d, sc, ok⟩
  | _ => none

/-- `json.Unmarshal(body, &res)` of `part_001` on the raw body bytes. -/
def jsonUnmarshalResponse (doc : JsonDoc) : Option Response :=
  match doc with
  | JsonDoc.invalid _ => none
  | JsonDoc.valid j => unmarshalResponse j

/-- `Client` of `part_001`; the `http.Client` field is the `Transport`
argument of `Upload`.  Its `Error` struct has the same shape as the current
revision's `ImgBBError`, which is reused here, together with its decoder. -/
structure Client where
  key : String
deriving Repr

/-- The multipart body written by the producer goroutine of `part_001`'s
`prepareRequest`: `key`, `type=file`, `action=upload`, `expiration` only
when `ttl > 0` (formatted in base 10), and the `image` file part. -/
def multipartBody (key : String) (img : Image) : List FormPart :=
  [FormPart.field "key" key, FormPart.field "type" "file", FormPart.field "action" "upload"]
    ++ (if 0 < img.ttl then [FormPart.field "expiration" (toString img.ttl)] else [])
    ++ [FormPart.filePart "image" img.name img.file]

/-- `respParse` of `part_001`: returns the Go pair `(Response, error)`; the
`Response` is a value, `Response{}` on every error path. -/
def respParse (resp : HttpResponse) : Response × Option Imgbb.ImgBBError :=
  match resp.body with
  | BodyRead.readError msg => (zeroResponse, some (Imgbb.internalReadError msg))
  | BodyRead.content doc =>
      if resp.statusCode ≠ 200 then
        match Imgbb.jsonUnmarshalError doc with
        | none => (zeroResponse, some Imgbb.internalUnmarshalError)
        | some errRes => (zeroResponse, some errRes)
      else
        match jsonUnmarshalResponse doc with
        | none => (zeroResponse, some Imgbb.internalUnmarshalError)
        | some res => (res, none)

/-- `Upload` of `part_001`: no validation here (the constructor validates);
the second component records the requests passed to the injected client.
The `http.NewRequestWithContext` error path is not modelled. -/
def Upload (c : Client) (transport : Transport) (img : Image) :
    (Response × Option Imgbb.ImgBBError) × List HttpRequest :=
  let req : HttpRequest :=
    ⟨"POST", Imgbb.endpoint,
      [("Content-Type", "multipart/form-data"), ("Host", "imgbb.com"),
       ("Origin", "https://imgbb.com"), ("Referer", "https://imgbb.com/")],
      multipartBody c.key img⟩
  match transport req with
  | TransportResult.failure msg =>
      ((zeroResponse, some (Imgbb.internalTransportError msg)), [req])
  | TransportResult.success resp => (respParse resp, [req])

end Rev1

namespace Rev2

/-- `Image` of `part_002`: exported fields, `Expiration` is a string. -/
structure Image where
  Name : String
  Size : Nat
  Expiration : String
  File : List Nat
deriving DecidableEq, Repr

/-- `NewImage` of `part_002`: pure construction, no validation. -/
def NewImage (name expiration : String) (file : List Nat) : Image :=
  ⟨name, file.length, expiration, file⟩

/-- `part_002` sentinel `ErrFileSize` (capitalised message; this revision has
no `ErrFileEmpty`). -/
def ErrFileSize : Imgbb.GoError :=
  Imgbb.GoError.sentinel "Image is too large. Max image size is 32mb"

/-- `data` of `part_002`: like the current revision's `Data` but without
`width`/`height`.  Its `info` and error structs have the same shape as the
current revision's `Info`/`ImgBBError`, which are reused. -/
structure data where
  ID : String
  Title : String
  UrlViewer : String
  Url : String
  DisplayUrl : String
  Size : Int
  Time : String
  Expiration : String
  Image : Imgbb.Info
  Thumb : Imgbb.Info
  Medium : Imgbb.Info
  DeleteUrl : String
deriving DecidableEq, Repr

/-- `ImgBBResult` of `part_002`. -/
structure ImgBBResult where
  Data : data
  StatusCode : Int
  Success : Bool
deriving DecidableEq, Repr

def zeroData : data :=
  ⟨"", "", "", "", "", 0, "", "", Imgbb.zeroInfo, Imgbb.zeroInfo, Imgbb.zeroInfo, ""⟩

/-- Unmarshal a JSON value into a `part_002` `data` struct. -/
def unmarshalData (j : Json) : Option data :=
  match j with
  | Json.null => some zeroData
  | Json.obj fs => do
      let id ← Imgbb.jStr fs "id"
      let title ← Imgbb.jStr fs "title"
      let urlViewer ← Imgbb.jStr fs "url_viewer"
      let url ← Imgbb.jStr fs "url"
      let displayUrl ← Imgbb.jStr fs "display_url"
      let size ← Imgbb.jInt fs "size"
      let time ← Imgbb.jStr fs "time"
      let expiration ← Imgbb.jStr fs "expiration"
      let image ← Imgbb.jInfo fs "image"
      let thumb ← Imgbb.jInfo fs "thumb"
      let medium ← Imgbb.jInfo fs "medium"
      let deleteUrl ← Imgbb.jStr fs "delete_url"
      some ⟨id, title, urlViewer, url, displayUrl, size, time, expiration,
            image, thumb, medium, deleteUrl⟩
  | _ => none

/-- Decode an object field into a `part_002` `data` struct field. -/
def jData (fs : List (String × Json)) (k : String) : Option data :=
  match Imgbb.jlookup fs k with
  | none => some zeroData
  | some j => unmarshalData j

/-- `json.Unmarshal` into a `part_002` `ImgBBResult`. -/
def unmarshalResult (j : Json) : Option ImgBBResult :=
  match j with
  | Json.null => some ⟨zeroData, 0, false⟩
  | Json.obj fs => do
      let d ← jData fs "data"
      let sc ← Imgbb.jInt fs "status"
      let ok ← Imgbb.jBool fs "success"
      some ⟨d, sc, ok⟩
  | _ => none

/-- `json.Unmarshal(data, &res)` of `part_002` on the raw body bytes. -/
def jsonUnmarshalResult (doc : JsonDoc) : Option ImgBBResult :=
  match doc with
  | JsonDoc.invalid _ => none
  | JsonDoc.valid j => unmarshalResult j

/-- `ImgBB` of `part_002`; its `http.Client` is the `Transport` argument. -/
structure ImgBB where
  Key : String
deriving Repr

/-- The multipart body written by the producer goroutine of `part_002`'s
`Upload` (same fields as the current revision). -/
def multipartBody (key : String) (img : Image) : List FormPart :=
  [FormPart.field "key" key, FormPart.field "type" "file", FormPart.field "action" "upload"]
    ++ (if 0 < img.Expiration.length then [FormPart.field "expiration" img.Expiration] else [])
    ++ [FormPart.filePart "image" img.Name img.File]

/-- `respParse` of `part_002` (same structure as the current revision; the
error-path messages are the bare underlying error texts, modelled with the
same stand-ins). -/
def respParse (resp : HttpResponse) : Option ImgBBResult × Option Imgbb.ImgBBError :=
  match resp.body with
  | BodyRead.readError msg => (none, some (Imgbb.internalReadError msg))
  | BodyRead.content doc =>
      if resp.statusCode = 200 then
        match jsonUnmarshalResult doc with
        | none => (none, some Imgbb.internalUnmarshalError)
        | some res => (some res, none)
      else
        match Imgbb.jsonUnmarshalError doc with
        | none => (none, some Imgbb.internalUnmarshalError)
        | some errRes => (none, some errRes)

/-- `Upload` of `part_002`: no empty-payload check in this revision, and an
oversized payload is rejected with `413 Request Entity Too Large` (not 400).
The second component records the requests passed to the injected client. -/
def Upload (c : ImgBB) (transport : Transport) (img : Image) :
    (Option ImgBBResult × Option Imgbb.ImgBBError) × List HttpRequest :=
  if 33554432 < img.Size then
    ((none, some ⟨413, statusText 413,
        ⟨"Image is too large. Max image size is 32mb", 0, ""⟩⟩), [])
  else
    let req : HttpRequest :=
      ⟨"POST", Imgbb.endpoint,
        [("Content-Type", "multipart/form-data"), ("Host", "imgbb.com"),
         ("Origin", "https://imgbb.com"), ("Referer", "https://imgbb.com/")],
        multipartBody c.Key img⟩
    match transport req with
    | TransportResult.failure msg => ((none, some (Imgbb.internalTransportError msg)), [req])
    | TransportResult.success resp => (respParse resp, [req])

end Rev2

namespace Rev3

/-- `Image` of `part_003`: carries either raw bytes (`file`, a possibly-nil
Go byte slice, hence an `Option`) or a `source` string. -/
structure Image where
  name : String
  size : Nat
  ttl : Nat
  source : String
  file : Option (List Nat)
deriving DecidableEq, Repr

/-- `NewImage` of `part_003` (source-string variant): no validation, and its
Go `error` result is always nil, so the model returns the `Image` directly.
`file` is left nil. -/
def NewImage (name : String) (ttl : Nat) (source : String) : Image :=
  ⟨name, source.length, ttl, source, none⟩

/-- `NewImageFromFile` of `part_003`: no validation, error always nil.  A
caller's non-nil (possibly empty) byte slice is modelled as `some file`. -/
def NewImageFromFile (name : String) (ttl : Nat) (file : List Nat) : Image :=
  ⟨name, file.length, ttl, "", some file⟩

/-- The `error` results of `part_003`'s `Upload`: either the typed `Error`
struct decoded from a non-200 body (same shape as the current revision's
`ImgBBError`, reused here), or a plain error wrapped with
`fmt.Errorf("%w", err)` — carrying no status code or status text. -/
inductive UploadError where
  | api (e : Imgbb.ImgBBError)
  | jsonUnmarshalFail
  | transportFail (msg : String)
  | bodyReadFail (msg : String)
deriving DecidableEq, Repr

/-- The multipart body written by the producer goroutine of `part_003`'s
`prepareRequest`: `key`, `expiration` only when `ttl > 0`, then either the
`image` file part (when `file` is non-nil) or the `name` and `image` string
fields.  This revision writes no `type` and no `action` field. -/
def prepareBody (key : String) (img : Image) : List FormPart :=
  [FormPart.field "key" key]
    ++ (if 0 < img.ttl then [FormPart.field "expiration" (toString img.ttl)] else [])
    ++ (match img.file with
        | some f => [FormPart.filePart "image" img.name f]
        | none => [FormPart.field "name" img.name, FormPart.field "image" img.source])

/-- `respParse` of `part_003`: decode failures and body-read failures are
returned as plain wrapped errors, not as `Error` values with a forced 500
status.  Its `Response`/`Data`/`Info` structs are declared identically to
`part_001`'s, which are reused together with their decoder. -/
def respParse (resp : HttpResponse) : Except UploadError Rev1.Response :=
  match resp.body with
  | BodyRead.readError msg => Except.error (UploadError.bodyReadFail msg)
  | BodyRead.content doc =>
      if resp.statusCode ≠ 200 then
        match Imgbb.jsonUnmarshalError doc with
        | none => Except.error UploadError.jsonUnmarshalFail
        | some errRes => Except.error (UploadError.api errRes)
      else
        match Rev1.jsonUnmarshalResponse doc with
        | none => Except.error UploadError.jsonUnmarshalFail
        | some res => Except.ok res

/-- `Upload` of `part_003`: no validation anywhere in this revision; a
transport failure is returned as a plain wrapped error.  The second
component records the requests passed to the injected client. -/
def Upload (key : String) (transport : Transport) (img : Image) :
    Except UploadError Rev1.Response × List HttpRequest :=
  let req : HttpRequest :=
    ⟨"POST", Imgbb.endpoint,
      [("Content-Type", "multipart/form-data"), ("Host", "imgbb.com"),
       ("Origin", "https://imgbb.com"), ("Referer", "https://imgbb.com/")],
      prepareBody key img⟩
  match transport req with
  | TransportResult.failure msg => (Except.error (UploadError.transportFail msg), [req])
  | TransportResult.success resp => (respParse resp, [req])

end Rev3

/-- A transport that always fails at the connection level (test fixture). -/
def trFail : Transport := fun _ => TransportResult.failure "connection refused"

/-- A transport answering 404 with a body that is not valid JSON. -/
def tr404bad : Transport :=
  fun _ => TransportResult.success ⟨404, BodyRead.content (JsonDoc.invalid "bad response format")⟩

def fixClient : Imgbb.ImgBB := Imgbb.New "secret-key" []

def fixClient1 : Rev1.Client := ⟨"secret-key"⟩

def fixClient2 : Rev2.ImgBB := ⟨"secret-key"⟩

/-- A 1-byte image for the current revision. -/
def fixImg1 : Imgbb.Image := Imgbb.NewImage "n" "" [1]

/-- An empty image for the current revision. -/
def fixImg0 : Imgbb.Image := Imgbb.NewImage "n" "" []

/-- A 1-byte image for `part_001` (as built by a successful `NewImage`). -/
def fixImg1Rev1 : Rev1.Image := ⟨"n", 1, 0, [1]⟩

/-- A payload one byte over the 32 MiB limit. -/
def bigFile : List Nat := List.replicate 33554433 0

/-- A small well-formed success body. -/
def fixJson : Json := Json.obj [("status", Json.num 200), ("success", Json.bool true)]

/-- The current revision's decoding of `fixJson`. -/
def fixResp : Imgbb.ImgBBResponse := ⟨Imgbb.zeroData, 200, true⟩

/-- `part_001`'s decoding of `fixJson`. -/
def fixResp1 : Rev1.Response := ⟨Rev1.zeroData, 200, true⟩

/-- A `part_003` image built from a 1-byte file. -/
def fixImg3 : Rev3.Image := Rev3.NewImageFromFile "n" 0 [1]

/-- A `part_003` image built from a source string. -/
def srcImg : Rev3.Image := Rev3.NewImage "n" 0 "https://example.com/a.png"

/-- The 400 error the current revision's `Upload` returns on an empty
payload. -/
def valErrEmpty : Imgbb.ImgBBError := ⟨400, "Bad Request", ⟨"image file is empty", 0, ""⟩⟩

/-- The `Error` value decoded from the body `{}` (all fields zero). -/
def zeroApiError : Imgbb.ImgBBError := ⟨0, "", ⟨"", 0, ""⟩⟩

theorem bigFile_length : bigFile.length = 33554433 := by
  rw [bigFile, List.length_replicate]

/-- Helper: the current revision's `respParse` always returns exactly one of
a response or an error. -/
theorem respParse_exclusive (resp : HttpResponse) :
    ((Imgbb.respParse resp).1.isSome ∧ (Imgbb.respParse resp).2 = none) ∨
    ((Imgbb.respParse resp).1 = none ∧ (Imgbb.respParse resp).2.isSome) := by
  rcases resp with ⟨sc, body⟩
  rcases body with msg | doc
  · right; simp [Imgbb.respParse]
  · by_cases h : sc = 200
    · rcases hm : Imgbb.jsonUnmarshalResponse doc with _ | res
      · right; simp [Imgbb.respParse, h, hm]
      · left; simp [Imgbb.respParse, h, hm]
    · rcases hm : Imgbb.jsonUnmarshalError doc with _ | e
      · right; simp [Imgbb.respParse, h, hm]
      · right; simp [Imgbb.respParse, h, hm]

/-- Helper: `part_001`'s `respParse` returns either no error, or the zero
response together with an error. -/
theorem rev1_respParse_exclusive (resp : HttpResponse) :
    (Rev1.respParse resp).2 = none ∨
    ((Rev1.respParse resp).1 = Rev1.zeroResponse ∧ (Rev1.respParse resp).2.isSome) := by
  rcases resp with ⟨sc, body⟩
  rcases body with msg | doc
  · right; simp [Rev1.respParse]
  · by_cases h : sc = 200
    · rcases hm : Rev1.jsonUnmarshalResponse doc with _ | res
      · right; simp [Rev1.respParse, h, hm]
      · left; simp [Rev1.respParse, h, hm]
    · rcases hm : Imgbb.jsonUnmarshalError doc with _ | e
      · right; simp [Rev1.respParse, h, hm]
      · right; simp [Rev1.respParse, h, hm]

/-- C6: two `ImgBBError` values are judged equivalent by the matching
contract (`ImgBBError.Is`) exactly when their status codes and status texts
are equal; the nested `ErrInfo` (message, code, context) plays no role in
the condition. -/
theorem error_matching_iff_status :
    ∀ (a b : Imgbb.ImgBBError),
      Imgbb.ImgBBError.Is a (Imgbb.GoError.imgbb b) = true ↔
        (a.StatusCode = b.StatusCode ∧ a.StatusText = b.StatusText) := by
  intro a b
  constructor
  · intro h
    simp only [Imgbb.ImgBBError.Is, Bool.and_eq_true, beq_iff_eq] at h
    exact ⟨h.1.symm, h.2.symm⟩
  · intro h
    simp only [Imgbb.ImgBBError.Is, Bool.and_eq_true, beq_iff_eq]
    exact ⟨h.1.symm, h.2.symm⟩

/-- C10: `ImgBBError.Is` returns false whenever the target is not itself an
`ImgBBError` value; in particular matching any error returned by `Upload`
against the package sentinels `ErrFileEmpty` and `ErrFileSize` never
succeeds. -/
theorem error_matching_non_imgbb_always_fails :
    (∀ (e : Imgbb.ImgBBError) (s : String),
       Imgbb.ImgBBError.Is e (Imgbb.GoError.sentinel s) = false) ∧
    (∀ (e : Imgbb.ImgBBError),
       Imgbb.ImgBBError.Is e Imgbb.ErrFileEmpty = false ∧
       Imgbb.ImgBBError.Is e Imgbb.ErrFileSize = false) ∧
    (∀ (c : Imgbb.ImgBB) (t : Transport) (img : Imgbb.Image) (e : Imgbb.ImgBBError),
       (Imgbb.Upload c t img).1.2 = some e →
       Imgbb.ImgBBError.Is e Imgbb.ErrFileEmpty = false ∧
       Imgbb.ImgBBError.Is e Imgbb.ErrFileSize = false) :=
  ⟨fun _ _ => rfl, fun _ => ⟨rfl, rfl⟩, fun _ _ _ _ _ => ⟨rfl, rfl⟩⟩

/-- C10 witness: the 400 error produced by uploading an empty image does not
match the `ErrFileEmpty` sentinel, although the sentinel's message text is
embedded in its `ErrInfo`. -/
theorem error_matching_non_imgbb_always_fails_witness :
    Imgbb.ImgBBError.Is valErrEmpty Imgbb.ErrFileEmpty = false ∧
    Imgbb.ImgBBError.Is valErrEmpty Imgbb.ErrFileSize = false :=
  error_matching_non_imgbb_always_fails.2.2 fixClient trFail fixImg0 valErrEmpty rfl

/-- C9: on a non-200 response whose body is valid JSON that unmarshals into
the error struct (which any JSON object or `null` does), `respParse` returns
the decoded `ImgBBError` as-is; in particular the body `{}` yields an error
with status code 0 and empty status text.  The forced
500/"Internal Server Error" value arises only when `json.Unmarshal` fails. -/
theorem nonok_decoded_error_passthrough :
    (∀ (status : Int) (j : Json) (e : Imgbb.ImgBBError),
      status ≠ 200 →
      Imgbb.unmarshalError j = some e →
      Imgbb.respParse ⟨status, BodyRead.content (JsonDoc.valid j)⟩ = (none, some e)) ∧
    Imgbb.unmarshalError (Json.obj []) = some zeroApiError ∧
    Imgbb.unmarshalError Json.null = some zeroApiError ∧
    Imgbb.respParse ⟨404, BodyRead.content (JsonDoc.valid (Json.obj []))⟩
      = (none, some zeroApiError) := by
  refine ⟨?_, rfl, rfl, rfl⟩
  intro status j e hs hd
  simp [Imgbb.respParse, hs, Imgbb.jsonUnmarshalError, hd]

/-- C9 witness: parsing a 404 response with the valid JSON body `{}` returns
the zero-valued decoded error as-is. -/
theorem nonok_decoded_error_passthrough_witness :
    Imgbb.respParse ⟨404, BodyRead.content (JsonDoc.valid (Json.obj []))⟩
      = (none, some zeroApiError) :=
  nonok_decoded_error_passthrough.1 404 (Json.obj []) zeroApiError (by decide) rfl

/-- C7: every `Upload` call produces exactly one of the two outcomes — a
response with no error, or no response (the zero response in `part_001`,
whose `Response` is a value type) with an error — never both, never
neither.  Proved for the current revision and for `part_001`. -/
theorem upload_exactly_one_outcome :
    (∀ (c : Imgbb.ImgBB) (t : Transport) (img : Imgbb.Image),
      ((Imgbb.Upload c t img).1.1.isSome ∧ (Imgbb.Upload c t img).1.2 = none) ∨
      ((Imgbb.Upload c t img).1.1 = none ∧ (Imgbb.Upload c t img).1.2.isSome)) ∧
    (∀ (c : Rev1.Client) (t : Transport) (img : Rev1.Image),
      (Rev1.Upload c t img).1.2 = none ∨
      ((Rev1.Upload c t img).1.1 = Rev1.zeroResponse ∧ (Rev1.Upload c t img).1.2.isSome)) := by
  constructor
  · intro c t img
    unfold Imgbb.Upload
    split
    · right; exact ⟨rfl, rfl⟩
    · split
      · right; exact ⟨rfl, rfl⟩
      · dsimp only
        split
        · right; exact ⟨rfl, rfl⟩
        · exact respParse_exclusive _
  · intro c t img
    unfold Rev1.Upload
    dsimp only
    split
    · right; exact ⟨rfl, rfl⟩
    · exact rev1_respParse_exclusive _

/-- C4: when the transport answers 200 with a body that unmarshals as the
success shape, `Upload` returns exactly the decoded response — every field,
including the nested `Data` and `Info` records, equals the decoded JSON —
and no error.  Proved for the current revision (for any image passing
validation) and for `part_001` (which validates at construction only). -/
theorem upload_success_decoded_exact :
    (∀ (c : Imgbb.ImgBB) (img : Imgbb.Image) (j : Json) (r : Imgbb.ImgBBResponse),
      0 < img.size → img.size ≤ 33554432 →
      Imgbb.unmarshalResponse j = some r →
      (Imgbb.Upload c
          (fun _ => TransportResult.success ⟨200, BodyRead.content (JsonDoc.valid j)⟩)
          img).1 = (some r, none)) ∧
    (∀ (c : Rev1.Client) (img : Rev1.Image) (j : Json) (r : Rev1.Response),
      Rev1.unmarshalResponse j = some r →
      (Rev1.Upload c
          (fun _ => TransportResult.success ⟨200, BodyRead.content (JsonDoc.valid j)⟩)
          img).1 = (r, none)) := by
  constructor
  · intro c img j r h0 h1 hr
    unfold Imgbb.Upload
    rw [if_neg (by omega), if_neg (by omega)]
    dsimp only
    simp [Imgbb.respParse, Imgbb.jsonUnmarshalResponse, hr]
  · intro c img j r hr
    unfold Rev1.Upload
    dsimp only
    simp [Rev1.respParse, Rev1.jsonUnmarshalResponse, hr]

/-- C4 witness: a concrete 200 body decodes and is returned unchanged by
both revisions. -/
theorem upload_success_decoded_exact_witness :
    (Imgbb.Upload fixClient
        (fun _ => TransportResult.success ⟨200, BodyRead.content (JsonDoc.valid fixJson)⟩)
        fixImg1).1 = (some fixResp, none) ∧
    (Rev1.Upload fixClient1
        (fun _ => TransportResult.success ⟨200, BodyRead.content (JsonDoc.valid fixJson)⟩)
        fixImg1Rev1).1 = (fixResp1, none) :=
  ⟨upload_success_decoded_exact.1 fixClient fixImg1 fixJson fixResp
      (by decide) (by decide) rfl,
   upload_success_decoded_exact.2 fixClient1 fixImg1Rev1 fixJson fixResp1 rfl⟩

/-- C8: an image failing validation makes `Upload` return the validation
error before any network activity: the injected client is never invoked and
no request is built (the recorded request trace is empty).  Proved for the
current revision (empty or oversized) and for `part_002` (oversized; that
revision performs no empty check). -/
theorem validation_error_no_network :
    (∀ (c : Imgbb.ImgBB) (t : Transport) (img : Imgbb.Image),
      img.size = 0 ∨ 33554432 < img.size →
      (Imgbb.Upload c t img).2 = [] ∧ (Imgbb.Upload c t img).1.1 = none ∧
        (Imgbb.Upload c t img).1.2.isSome) ∧
    (∀ (c : Rev2.ImgBB) (t : Transport) (img : Rev2.Image),
      33554432 < img.Size →
      (Rev2.Upload c t img).2 = [] ∧ (Rev2.Upload c t img).1.1 = none ∧
        (Rev2.Upload c t img).1.2.isSome) := by
  constructor
  · intro c t img h
    unfold Imgbb.Upload
    rcases h with h | h
    · rw [if_pos (by omega)]
      exact ⟨rfl, rfl, rfl⟩
    · rw [if_neg (by omega), if_pos h]
      exact ⟨rfl, rfl, rfl⟩
  · intro c t img h
    unfold Rev2.Upload
    rw [if_pos h]
    exact ⟨rfl, rfl, rfl⟩

/-- C8 witness: the empty image and an oversized image short-circuit before
the transport. -/
theorem validation_error_no_network_witness :
    ((Imgbb.Upload fixClient trFail fixImg0).2 = [] ∧
      (Imgbb.Upload fixClient trFail fixImg0).1.1 = none ∧
      (Imgbb.Upload fixClient trFail fixImg0).1.2.isSome) ∧
    (Rev2.Upload fixClient2 trFail (Rev2.NewImage "n" "" bigFile)).2 = [] :=
  ⟨validation_error_no_network.1 fixClient trFail fixImg0 (Or.inl rfl),
   (validation_error_no_network.2 fixClient2 trFail (Rev2.NewImage "n" "" bigFile)
      (by show 33554432 < bigFile.length; rw [bigFile_length]; decide)).1⟩

/-- C1 counterexample: in `part_002`, uploading a payload of exactly
33554433 bytes fails with status 413 (Request Entity Too Large), not with a
validation error whose status is 400 as the claim states. -/
theorem oversize_status_413_not_400 :
    ((Rev2.Upload fixClient2 trFail (Rev2.NewImage "n" "" bigFile)).1.2).map
        (fun e => e.StatusCode) = some 413 ∧
    ((Rev2.Upload fixClient2 trFail (Rev2.NewImage "n" "" bigFile)).1.2).map
        (fun e => e.StatusCode) ≠ some 400 := by
  have h : 33554432 < (Rev2.NewImage "n" "" bigFile).Size := by
    show 33554432 < bigFile.length
    rw [bigFile_length]; decide
  unfold Rev2.Upload
  rw [if_pos h]
  exact ⟨rfl, by decide⟩

/-- C1 (amended): for payloads longer than 33554432 bytes: the current
revision's `Upload` fails with a 400 Bad Request validation error;
`part_002`'s `Upload` fails with 413 Request Entity Too Large; `part_001`
(the revision that validates at construction) rejects with the
`ErrFileSize` sentinel. -/
theorem oversize_validation_by_revision :
    (∀ (c : Imgbb.ImgBB) (t : Transport) (img : Imgbb.Image),
      33554432 < img.size →
      (Imgbb.Upload c t img).1 =
        (none, some ⟨400, "Bad Request",
          ⟨"image is too large, max image size is 32mb", 0, ""⟩⟩)) ∧
    (∀ (c : Rev2.ImgBB) (t : Transport) (img : Rev2.Image),
      33554432 < img.Size →
      (Rev2.Upload c t img).1 =
        (none, some ⟨413, "Request Entity Too Large",
          ⟨"Image is too large. Max image size is 32mb", 0, ""⟩⟩)) ∧
    (∀ (name : String) (ttl : Nat) (file : List Nat),
      33554432 < file.length →
      Rev1.NewImage name ttl file = Except.error Rev1.ErrFileSize) := by
  refine ⟨?_, ?_, ?_⟩
  · intro c t img h
    unfold Imgbb.Upload
    rw [if_neg (by omega), if_pos h]
    decide
  · intro c t img h
    unfold Rev2.Upload
    rw [if_pos h]
    decide
  · intro name ttl file h
    unfold Rev1.NewImage Rev1.maxSize
    rw [if_neg (by omega), if_pos h]

/-- C1 witness: the three amended branches at a payload of 33554433 bytes. -/
theorem oversize_validation_by_revision_witness :
    (Rev2.Upload fixClient2 trFail (Rev2.NewImage "n" "" bigFile)).1 =
      (none, some ⟨413, "Request Entity Too Large",
        ⟨"Image is too large. Max image size is 32mb", 0, ""⟩⟩) ∧
    Rev1.NewImage "n" 0 bigFile = Except.error Rev1.ErrFileSize ∧
    (Imgbb.Upload fixClient trFail (Imgbb.NewImage "n" "" bigFile)).1 =
      (none, some ⟨400, "Bad Request",
        ⟨"image is too large, max image size is 32mb", 0, ""⟩⟩) :=
  ⟨oversize_validation_by_revision.2.1 fixClient2 trFail (Rev2.NewImage "n" "" bigFile)
      (by show 33554432 < bigFile.length; rw [bigFile_length]; decide),
   oversize_validation_by_revision.2.2 "n" 0 bigFile
      (by rw [bigFile_length]; decide),
   oversize_validation_by_revision.1 fixClient trFail (Imgbb.NewImage "n" "" bigFile)
      (by show 33554432 < bigFile.length; rw [bigFile_length]; decide)⟩

/-- C2 counterexample: `part_003` never validates: an empty payload is
accepted by `NewImageFromFile`, and `Upload` hands a request to the injected
client (one request recorded), whose failure is passed back as a plain
wrapped error — no validation error with status 400 is ever produced. -/
theorem empty_payload_accepted_rev3 :
    (Rev3.Upload "secret-key" trFail (Rev3.NewImageFromFile "n" 0 [])).2.length = 1 ∧
    (Rev3.Upload "secret-key" trFail (Rev3.NewImageFromFile "n" 0 [])).1 =
      Except.error (Rev3.UploadError.transportFail "connection refused") :=
  ⟨rfl, rfl⟩

/-- C2 (amended): for empty payloads: the current revision's `Upload` fails
with a 400 Bad Request validation error and sends nothing; `part_001`'s
`NewImage` fails at construction with the bare `ErrFileEmpty` sentinel (no
status attached); `part_003` validates at neither point — construction
succeeds and `Upload` always hands the request to the injected client. -/
theorem empty_payload_by_revision :
    (∀ (c : Imgbb.ImgBB) (t : Transport) (img : Imgbb.Image),
      img.size = 0 →
      (Imgbb.Upload c t img).1 =
        (none, some ⟨400, "Bad Request", ⟨"image file is empty", 0, ""⟩⟩) ∧
      (Imgbb.Upload c t img).2 = []) ∧
    (∀ (name : String) (ttl : Nat) (file : List Nat),
      file.length = 0 →
      Rev1.NewImage name ttl file = Except.error Rev1.ErrFileEmpty) ∧
    (∀ (key : String) (t : Transport) (name : String) (ttl : Nat),
      (Rev3.Upload key t (Rev3.NewImageFromFile name ttl [])).2.length = 1) := by
  refine ⟨?_, ?_, ?_⟩
  · intro c t img h
    unfold Imgbb.Upload
    rw [if_pos (by omega)]
    exact ⟨rfl, rfl⟩
  · intro name ttl file h
    unfold Rev1.NewImage
    rw [if_pos (by omega)]
  · intro key t name ttl
    unfold Rev3.Upload
    dsimp only
    split <;> rfl

/-- C2 witness: the three amended branches at an empty payload. -/
theorem empty_payload_by_revision_witness :
    (Imgbb.Upload fixClient trFail fixImg0).1 =
      (none, some ⟨400, "Bad Request", ⟨"image file is empty", 0, ""⟩⟩) ∧
    Rev1.NewImage "n" 0 [] = Except.error Rev1.ErrFileEmpty ∧
    (Rev3.Upload "secret-key" trFail (Rev3.NewImageFromFile "img" 7 [])).2.length = 1 :=
  ⟨(empty_payload_by_revision.1 fixClient trFail fixImg0 rfl).1,
   empty_payload_by_revision.2.1 "n" 0 [] rfl,
   empty_payload_by_revision.2.2 "secret-key" trFail "img" 7⟩

/-- C3 counterexample: in `part_003`, a non-200 response whose body fails to
decode as the error shape makes `Upload` return the plain wrapped decode
error, which is not an `Error` value at all and in particular carries no
500 status code and no "Internal Server Error" text. -/
theorem nonok_undecodable_rev3_plain_error :
    (Rev3.Upload "secret-key" tr404bad fixImg3).1 =
      Except.error Rev3.UploadError.jsonUnmarshalFail ∧
    (match (Rev3.Upload "secret-key" tr404bad fixImg3).1 with
     | Except.error (Rev3.UploadError.api e) => e.StatusCode
     | _ => 0) ≠ 500 :=
  ⟨rfl, by decide⟩

/-- C3 (amended): on a non-200 response whose body fails to unmarshal as the
error shape, the current revision's `Upload` returns no response and the
forced Internal error, whose status code is 500 and status text is
"Internal Server Error" (not the original HTTP status); `part_003` instead
returns a plain wrapped decode error carrying no status at all. -/
theorem nonok_undecodable_by_revision :
    (∀ (c : Imgbb.ImgBB) (img : Imgbb.Image) (status : Int) (doc : JsonDoc),
      0 < img.size → img.size ≤ 33554432 → status ≠ 200 →
      Imgbb.jsonUnmarshalError doc = none →
      (Imgbb.Upload c
          (fun _ => TransportResult.success ⟨status, BodyRead.content doc⟩) img).1 =
        (none, some Imgbb.internalUnmarshalError)) ∧
    Imgbb.internalUnmarshalError.StatusCode = 500 ∧
    Imgbb.internalUnmarshalError.StatusText = "Internal Server Error" ∧
    (∀ (key : String) (img : Rev3.Image) (status : Int) (doc : JsonDoc),
      status ≠ 200 →
      Imgbb.jsonUnmarshalError doc = none →
      (Rev3.Upload key
          (fun _ => TransportResult.success ⟨status, BodyRead.content doc⟩) img).1 =
        Except.error Rev3.UploadError.jsonUnmarshalFail) := by
  refine ⟨?_, rfl, rfl, ?_⟩
  · intro c img status doc h0 h1 hs hd
    unfold Imgbb.Upload
    rw [if_neg (by omega), if_neg (by omega)]
    dsimp only
    simp [Imgbb.respParse, hs, hd]
  · intro key img status doc hs hd
    unfold Rev3.Upload
    dsimp only
    simp [Rev3.respParse, hs, hd]

/-- C3 witness: a 404 with an undecodable body, against both revisions. -/
theorem nonok_undecodable_by_revision_witness :
    (Imgbb.Upload fixClient
        (fun _ => TransportResult.success
          ⟨404, BodyRead.content (JsonDoc.invalid "bad response format")⟩)
        fixImg1).1 = (none, some Imgbb.internalUnmarshalError) ∧
    (Rev3.Upload "secret-key"
        (fun _ => TransportResult.success
          ⟨404, BodyRead.content (JsonDoc.invalid "bad response format")⟩)
        fixImg3).1 = Except.error Rev3.UploadError.jsonUnmarshalFail :=
  ⟨nonok_undecodable_by_revision.1 fixClient fixImg1 404
      (JsonDoc.invalid "bad response format") (by decide) (by decide) (by decide) rfl,
   nonok_undecodable_by_revision.2.2.2 "secret-key" fixImg3 404
      (JsonDoc.invalid "bad response format") (by decide) rfl⟩

/-- C5 counterexample: in the source-string variant (`part_003`), the
multipart body is only `key`, `name`, `image` — it contains neither a
`type=file` nor an `action=upload` field, contrary to the claimed field
set. -/
theorem source_variant_body_no_type_action :
    Rev3.prepareBody "secret-key" srcImg =
      [FormPart.field "key" "secret-key", FormPart.field "name" "n",
       FormPart.field "image" "https://example.com/a.png"] ∧
    FormPart.field "type" "file" ∉ Rev3.prepareBody "secret-key" srcImg ∧
    FormPart.field "action" "upload" ∉ Rev3.prepareBody "secret-key" srcImg :=
  ⟨rfl, by decide, by decide⟩

/-- C5 (amended): the current revision's multipart body contains exactly
`key`, `type=file`, `action=upload`, an `expiration` field exactly when the
expiration string is non-empty (the field is omitted entirely otherwise,
never written with an empty value), and the `image` file part carrying the
raw bytes under the image's name.  The source-string variant (`part_003`)
writes `key`, an `expiration` field exactly when the ttl is non-zero, and
either the `image` file part or the `name` field plus the `image` field
carrying the source string — but no `type` and no `action` field. -/
theorem multipart_body_fields :
    (∀ (key : String) (img : Imgbb.Image),
      FormPart.field "key" key ∈ Imgbb.multipartBody key img ∧
      FormPart.field "type" "file" ∈ Imgbb.multipartBody key img ∧
      FormPart.field "action" "upload" ∈ Imgbb.multipartBody key img ∧
      FormPart.filePart "image" img.name img.file ∈ Imgbb.multipartBody key img ∧
      (∀ v, FormPart.field "expiration" v ∈ Imgbb.multipartBody key img ↔
        (0 < img.expiration.length ∧ v = img.expiration)) ∧
      (∀ p, p ∈ Imgbb.multipartBody key img →
        p = FormPart.field "key" key ∨ p = FormPart.field "type" "file" ∨
        p = FormPart.field "action" "upload" ∨
        p = FormPart.field "expiration" img.expiration ∨
        p = FormPart.filePart "image" img.name img.file)) ∧
    (∀ (key : String) (img : Rev3.Image),
      FormPart.field "key" key ∈ Rev3.prepareBody key img ∧
      FormPart.field "type" "file" ∉ Rev3.prepareBody key img ∧
      FormPart.field "action" "upload" ∉ Rev3.prepareBody key img ∧
      (∀ v, FormPart.field "expiration" v ∈ Rev3.prepareBody key img ↔
        (0 < img.ttl ∧ v = toString img.ttl)) ∧
      (∀ f, img.file = some f →
        FormPart.filePart "image" img.name f ∈ Rev3.prepareBody key img) ∧
      (img.file = none →
        FormPart.field "name" img.name ∈ Rev3.prepareBody key img ∧
        FormPart.field "image" img.source ∈ Rev3.prepareBody key img)) := by
  constructor
  · intro key img
    by_cases he : 0 < img.expiration.length <;>
      refine ⟨?_, ?_, ?_, ?_, ?_, ?_⟩ <;>
        simp [Imgbb.multipartBody, he]
  · intro key img
    rcases hf : img.file with _ | f <;> by_cases ht : 0 < img.ttl <;>
      refine ⟨?_, ?_, ?_, ?_, ?_, ?_⟩ <;>
        simp [Rev3.prepareBody, hf, ht]

/-- C5 witness: concrete bodies from both revisions — the current revision
writes `type=file`; the source-string variant writes the `name` field and
omits `type=file`. -/
theorem multipart_body_fields_witness :
    FormPart.field "type" "file" ∈ Imgbb.multipartBody "secret-key" fixImg1 ∧
    FormPart.field "name" "n" ∈ Rev3.prepareBody "secret-key" srcImg ∧
    FormPart.field "type" "file" ∉ Rev3.prepareBody "secret-key" srcImg :=
  ⟨(multipart_body_fields.1 "secret-key" fixImg1).2.1,
   ((multipart_body_fields.2 "secret-key" srcImg).2.2.2.2.2 rfl).1,
   (multipart_body_fields.2 "secret-key" srcImg).2.1⟩
